import Mathlib

/-!
Verification of the Antijection n8n node (src/nodes/Antijection/Antijection.node.ts).

The execute routine is embedded shallowly: JavaScript strings are Lean
strings, the JS `trim`/`split('\n')` operations are modelled on the
underlying character lists, the HTTP transport is an oracle parameter, and
the per-item try/catch control flow becomes explicit Except values.
-/

namespace Antijection

/-- Model of JavaScript String.prototype.trim on character lists:
drop whitespace from both ends. -/
def trimChars (l : List Char) : List Char :=
  ((l.dropWhile Char.isWhitespace).reverse.dropWhile Char.isWhitespace).reverse

/-- Model of JavaScript String.prototype.trim. -/
def jsTrim (s : String) : String :=
  String.mk (trimChars s.data)

/-- Model of JavaScript String.prototype.split('\n') on character lists:
split at every newline, keeping empty segments. -/
def splitNl : List Char → List (List Char)
  | [] => [[]]
  | c :: rest =>
    if c = '\n' then [] :: splitNl rest
    else
      match splitNl rest with
      | [] => [[c]]
      | h :: t => (c :: h) :: t

/-- The ruleSettings collection parameter as the host hands it over
(lines 189-193 of the node): every sub-field may be absent. -/
structure RuleSettingsInput where
  enabled : Option Bool
  disabledCategories : Option (List String)
  blockedKeywords : Option String
deriving DecidableEq

/-- The per-item node parameters read at lines 187-193. -/
structure ItemParams where
  prompt : String
  detectionMethod : String
  ruleSettings : Option RuleSettingsInput
deriving DecidableEq

/-- The rule_settings object of the request payload (lines 215-219). -/
structure RuleSettings where
  enabled : Bool
  disabled_categories : List String
  blocked_keywords : List String
deriving DecidableEq

/-- The request payload built at lines 212-238. -/
structure DetectionRequest where
  prompt : String
  detection_method : String
  rule_settings : Option RuleSettings
deriving DecidableEq

/-- A NodeOperationError: message plus the itemIndex option. -/
structure NodeError where
  message : String
  itemIndex : Nat
deriving DecidableEq

/-- Lines 227-231: split the blockedKeywords string by newlines, trim each
piece, and keep only the nonempty ones. -/
def parseBlockedKeywords (bk : String) : List String :=
  ((splitNl bk.data).map (fun l => jsTrim (String.mk l))).filter
    (fun s => decide (0 < s.length))

/-- Lines 233-237: assemble the rule_settings payload object. The
`enabled !== false` test and the `|| []` and truthiness fallbacks of the
source are rendered with Option matches. -/
def buildRuleSettings (rs : RuleSettingsInput) : RuleSettings :=
  { enabled := rs.enabled != some false,
    disabled_categories := rs.disabledCategories.getD [],
    blocked_keywords :=
      match rs.blockedKeywords with
      | none => []
      | some bk => if bk = "" then [] else parseBlockedKeywords bk }

/-- Lines 196-238: validate the prompt and build the request payload for
item i. The two NodeOperationError throws become Except.error. -/
def buildPayload (p : ItemParams) (i : Nat) : Except NodeError DetectionRequest :=
  if p.prompt = "" ∨ (jsTrim p.prompt).length = 0 then
    .error { message := "Prompt cannot be empty", itemIndex := i }
  else if p.prompt.length > 10000 then
    .error { message := "Prompt is too long (" ++ toString p.prompt.length
                ++ " characters). Maximum allowed is 10,000 characters.",
             itemIndex := i }
  else
    .ok { prompt := p.prompt,
          detection_method := p.detectionMethod,
          rule_settings := p.ruleSettings.map buildRuleSettings }

/-- The detail/error fields of an HTTP error response body (lines 265-272). -/
structure HttpBody where
  detail : Option String
  error : Option String
deriving DecidableEq

/-- The response attached to a caught HTTP error (lines 263-273). -/
structure HttpErrorResponse where
  status : Option Nat
  body : Option HttpBody
  data : Option HttpBody
deriving DecidableEq

/-- A caught error as destructured at lines 261-275. -/
structure CaughtError where
  message : String
  response : Option HttpErrorResponse
  statusCode : Option Nat
deriving DecidableEq

/-- The errorMessage/errorDetails pair computed by the catch block. -/
structure ClassifiedError where
  errorMessage : String
  errorDetails : String
deriving DecidableEq

/-- JavaScript `a || b` on optional numbers: 0 and undefined are falsy. -/
def jsOrNat (a b : Option Nat) : Option Nat :=
  match a with
  | none => b
  | some 0 => b
  | some n => some n

/-- JavaScript `a || b` on optional objects: only undefined is falsy. -/
def jsOrBody (a b : Option HttpBody) : Option HttpBody :=
  match a with
  | none => b
  | some x => some x

/-- JavaScript truthiness of an optional string: undefined and the empty
string are falsy. -/
def jsStrTruthy : Option String → Option String
  | none => none
  | some s => if s = "" then none else some s

/-- The `responseBody?.detail || responseBody?.error || dflt` chain used at
lines 299 and 309. -/
def jsDetailOr (rb : Option HttpBody) (dflt : String) : String :=
  (Option.orElse (jsStrTruthy (rb.bind HttpBody.detail))
    (fun _ => jsStrTruthy (rb.bind HttpBody.error))).getD dflt

/-- Renders the interpolated status code of the default branch; an absent
status prints as in JavaScript. -/
def statusToString : Option Nat → String
  | some n => toString n
  | none => "undefined"

/-- The switch on the status code, lines 284-310. -/
def classifyHttp (st : Option Nat) (rb : Option HttpBody) (msg : String) : ClassifiedError :=
  if st = some 401 then
    { errorMessage := "Authentication failed",
      errorDetails := "Invalid API key. Please check your Antijection API credentials." }
  else if st = some 403 then
    { errorMessage := "Access forbidden",
      errorDetails := "Your API key does not have permission to access this resource." }
  else if st = some 429 then
    { errorMessage := "Rate limit exceeded",
      errorDetails := "You have exceeded your API rate limit or credit quota. Please upgrade your plan or wait before retrying." }
  else if st = some 400 then
    { errorMessage := "Invalid request",
      errorDetails := jsDetailOr rb "The request was malformed. Check your input parameters." }
  else if st = some 500 ∨ st = some 502 ∨ st = some 503 then
    { errorMessage := "Antijection API error",
      errorDetails := "The Antijection service is temporarily unavailable. Please try again later." }
  else
    { errorMessage := "HTTP " ++ statusToString st ++ " error",
      errorDetails := jsDetailOr rb msg }

/-- Lines 276-311: compute errorMessage and errorDetails from a caught
error; without an attached response the raw message passes through. -/
def classifyError (e : CaughtError) : ClassifiedError :=
  match e.response with
  | none => { errorMessage := e.message, errorDetails := "" }
  | some resp =>
      classifyHttp (jsOrNat resp.status e.statusCode)
        (jsOrBody resp.body resp.data) e.message

/-- Line 327: the combined message thrown when not continuing on failure. -/
def fullErrorOf (c : ClassifiedError) : String :=
  if c.errorDetails = "" then c.errorMessage
  else c.errorMessage ++ ": " ++ c.errorDetails

/-- Outcome of the HTTP call for one item: a decoded response of type ρ or
a caught transport error. -/
inductive HttpResult (ρ : Type) where
  | ok (response : ρ)
  | err (e : CaughtError)
deriving DecidableEq

/-- The json field of an output item: raw response or error record
(lines 253-258 and 314-323). -/
inductive OutJson (ρ : Type) where
  | response (r : ρ)
  | errorRecord (error : String) (details : String) (statusCode : Option Nat)
deriving DecidableEq

/-- One output item with its pairedItem index. -/
structure OutputItem (ρ : Type) where
  json : OutJson ρ
  pairedItem : Nat
deriving DecidableEq

/-- The try block for item i (lines 186-258 up to the push): validation
errors surface as caught errors with no attached response. -/
def tryBody {ρ : Type} (http : DetectionRequest → HttpResult ρ) (p : ItemParams)
    (i : Nat) : Except CaughtError ρ :=
  match buildPayload p i with
  | .error ne => .error { message := ne.message, response := none, statusCode := none }
  | .ok payload =>
    match http payload with
    | .ok r => .ok r
    | .err e => .error e

/-- The catch block (lines 259-331): either record the error as an output
item or abort with the combined message at the failing index. -/
def handleError {ρ : Type} (continueOnFail : Bool) (e : CaughtError) (i : Nat) :
    Except NodeError (OutputItem ρ) :=
  let c := classifyError e
  if continueOnFail then
    .ok { json := .errorRecord c.errorMessage c.errorDetails
            (jsOrNat (e.response.bind HttpErrorResponse.status) e.statusCode),
          pairedItem := i }
  else
    .error { message := fullErrorOf c, itemIndex := i }

/-- Processing of one item: run the try block, push the response on
success, defer to the catch block on failure. -/
def runItem {ρ : Type} (continueOnFail : Bool) (http : DetectionRequest → HttpResult ρ)
    (p : ItemParams) (i : Nat) : Except NodeError (OutputItem ρ) :=
  match tryBody http p i with
  | .ok r => .ok { json := .response r, pairedItem := i }
  | .error e => handleError continueOnFail e i

/-- The item loop of execute (lines 185-332), indexed from i; a thrown
NodeOperationError aborts the loop and discards all output. -/
def executeLoop {ρ : Type} (continueOnFail : Bool)
    (http : Nat → DetectionRequest → HttpResult ρ) :
    List ItemParams → Nat → Except NodeError (List (OutputItem ρ))
  | [], _ => .ok []
  | p :: ps, i =>
    match runItem continueOnFail (http i) p i with
    | .error ne => .error ne
    | .ok item => Except.map (fun rest => item :: rest) (executeLoop continueOnFail http ps (i + 1))

/-- The execute routine over the whole input item list. -/
def execute {ρ : Type} (continueOnFail : Bool)
    (http : Nat → DetectionRequest → HttpResult ρ) (items : List ItemParams) :
    Except NodeError (List (OutputItem ρ)) :=
  executeLoop continueOnFail http items 0

/-- Line 182: `baseUrl.replace(/\/$/, '')` removes one trailing slash. -/
def stripSlash (l : List Char) : List Char :=
  if l.getLast? = some '/' then l.dropLast else l

/-- The URL the request is sent to (lines 182 and 242). -/
def detectUrl (baseUrl : String) : String :=
  String.mk (stripSlash baseUrl.data) ++ "/v1/detect"

/-- The request options built at lines 240-249. -/
structure RequestOptions where
  method : String
  url : String
  body : DetectionRequest
  authorization : String
  contentType : String
deriving DecidableEq

/-- Lines 240-249: assemble the HTTP request options. -/
def buildOptions (baseUrl apiKey : String) (payload : DetectionRequest) : RequestOptions :=
  { method := "POST",
    url := detectUrl baseUrl,
    body := payload,
    authorization := "Bearer " ++ apiKey,
    contentType := "application/json" }

/-- The output of one item when continuing on failure: what runItem pushes,
never an abort. -/
def forcedOut {ρ : Type} (http : DetectionRequest → HttpResult ρ) (p : ItemParams)
    (i : Nat) : OutputItem ρ :=
  match tryBody http p i with
  | .ok r => { json := .response r, pairedItem := i }
  | .error e =>
    let c := classifyError e
    { json := .errorRecord c.errorMessage c.errorDetails
        (jsOrNat (e.response.bind HttpErrorResponse.status) e.statusCode),
      pairedItem := i }

/-- Substring occurrence test: does the needle occur as a leading block? -/
def charsPre : List Char → List Char → Bool
  | [], _ => true
  | _ :: _, [] => false
  | a :: as, b :: bs => a == b && charsPre as bs

/-- Substring occurrence test over all positions of the haystack. -/
def charsHas (needle : List Char) : List Char → Bool
  | [] => charsPre needle []
  | b :: bs => charsPre needle (b :: bs) || charsHas needle bs

/-- Containment of one string in another, used to state what an error
message mentions. -/
def strHas (hay needle : String) : Bool :=
  charsHas needle.data hay.data

/-! Basic facts about the string model. -/

theorem strData_append (a b : String) : (a ++ b).data = a.data ++ b.data := by
  cases a
  cases b
  rfl

theorem dropWhile_all_eq_nil {p : Char → Bool} {l : List Char} (h : l.all p = true) :
    l.dropWhile p = [] := by
  induction l with
  | nil => rfl
  | cons a l ih =>
    rw [List.all_cons, Bool.and_eq_true] at h
    simp [List.dropWhile_cons, h.1, ih h.2]

theorem trimChars_all_ws {l : List Char} (h : l.all Char.isWhitespace = true) :
    trimChars l = [] := by
  unfold trimChars
  rw [dropWhile_all_eq_nil h]
  rfl

theorem jsTrim_all_ws {s : String} (h : s.data.all Char.isWhitespace = true) :
    jsTrim s = "" := by
  unfold jsTrim
  rw [trimChars_all_ws h]

theorem all_ws_replicate_space (n : Nat) :
    (List.replicate n ' ').all Char.isWhitespace = true := by
  induction n with
  | zero => rfl
  | succ n ih =>
    rw [List.replicate_succ, List.all_cons, ih]
    rfl

theorem dropWhile_replicate_not {p : Char → Bool} {c : Char} (h : p c = false) (n : Nat) :
    (List.replicate n c).dropWhile p = List.replicate n c := by
  cases n with
  | zero => rfl
  | succ n => simp [List.replicate_succ, List.dropWhile_cons, h]

theorem replicate_concat_self (c : Char) (n : Nat) :
    List.replicate n c ++ [c] = List.replicate (n + 1) c := by
  induction n with
  | zero => rfl
  | succ n ih =>
    rw [List.replicate_succ, List.cons_append, ih]
    rfl

theorem reverse_replicate_self (c : Char) (n : Nat) :
    (List.replicate n c).reverse = List.replicate n c := by
  induction n with
  | zero => rfl
  | succ n ih =>
    rw [List.replicate_succ, List.reverse_cons, ih, replicate_concat_self,
      List.replicate_succ]

theorem trimChars_replicate_not {c : Char} (h : c.isWhitespace = false) (n : Nat) :
    trimChars (List.replicate n c) = List.replicate n c := by
  unfold trimChars
  rw [dropWhile_replicate_not h, reverse_replicate_self,
    dropWhile_replicate_not h, reverse_replicate_self]

theorem charsPre_append (n rest : List Char) : charsPre n (n ++ rest) = true := by
  induction n with
  | nil => rfl
  | cons a as ih => simp [charsPre, ih]

theorem charsHas_split (pre n post : List Char) :
    charsHas n (pre ++ (n ++ post)) = true := by
  induction pre with
  | nil =>
    rw [List.nil_append]
    cases hn : n ++ post with
    | nil =>
      obtain ⟨h1, h2⟩ := List.append_eq_nil.mp hn
      subst h1
      rfl
    | cons b bs =>
      show (charsPre n (b :: bs) || charsHas n bs) = true
      rw [← hn, charsPre_append, Bool.true_or]
  | cons c pre ih =>
    rw [List.cons_append]
    show (charsPre n (c :: (pre ++ (n ++ post))) || charsHas n (pre ++ (n ++ post))) = true
    rw [ih, Bool.or_true]

theorem strHas_of_data {m n : String} (pre post : List Char)
    (h : m.data = pre ++ (n.data ++ post)) : strHas m n = true := by
  unfold strHas
  rw [h]
  exact charsHas_split pre n.data post

/-! Facts about payload building shared by several claims. -/

theorem buildPayload_ok (p : ItemParams) (i : Nat)
    (h0 : ¬ p.prompt = "") (h3 : (jsTrim p.prompt).length ≠ 0)
    (h2 : ¬ p.prompt.length > 10000) :
    buildPayload p i = .ok
      { prompt := p.prompt,
        detection_method := p.detectionMethod,
        rule_settings := p.ruleSettings.map buildRuleSettings } := by
  have hcond : ¬ (p.prompt = "" ∨ (jsTrim p.prompt).length = 0) := by
    rintro (h | h)
    · exact h0 h
    · exact h3 h
  unfold buildPayload
  rw [if_neg hcond, if_neg h2]

theorem buildPayload_empty (p : ItemParams) (i : Nat)
    (h : p.prompt = "" ∨ p.prompt.data.all Char.isWhitespace = true) :
    buildPayload p i = .error { message := "Prompt cannot be empty", itemIndex := i } := by
  have hcond : p.prompt = "" ∨ (jsTrim p.prompt).length = 0 := by
    rcases h with h | h
    · exact Or.inl h
    · exact Or.inr (by rw [jsTrim_all_ws h]; rfl)
  unfold buildPayload
  rw [if_pos hcond]

/-- C1 as stated is false: a prompt of one space has length 1, inside
[1,10000], yet the payload builder raises a validation error. -/
theorem C1_counterexample :
    (" " : String).length = 1 ∧
    buildPayload { prompt := " ", detectionMethod := "INJECTION_GUARD", ruleSettings := none } 0
      = .error { message := "Prompt cannot be empty", itemIndex := 0 } :=
  ⟨rfl, rfl⟩

/-- C1 (amended): for every prompt with length in [1,10000] whose trimmed
form is nonempty, and every detection method among the three enum values,
the payload builder succeeds and produces a DetectionRequest whose
detection_method equals the selected value and whose prompt equals the
input unchanged. -/
theorem C1_payload_builder (prompt dm : String) (rs : Option RuleSettingsInput) (i : Nat)
    (h1 : 1 ≤ prompt.length) (h2 : prompt.length ≤ 10000)
    (h3 : (jsTrim prompt).length ≠ 0)
    (hdm : dm = "INJECTION_GUARD" ∨ dm = "INJECTION_GUARD_MULTI" ∨ dm = "SAFETY_GUARD") :
    ∃ req, buildPayload { prompt := prompt, detectionMethod := dm, ruleSettings := rs } i = .ok req ∧
      req.detection_method = dm ∧ req.prompt = prompt := by
  have h0 : ¬ prompt = "" := by
    intro h
    subst h
    exact absurd h1 (by decide)
  exact ⟨_, buildPayload_ok { prompt := prompt, detectionMethod := dm, ruleSettings := rs } i
    h0 h3 (by show ¬ prompt.length > 10000; omega), rfl, rfl⟩

/-- Witness for C1 at a concrete valid prompt and method. -/
theorem C1_witness :
    (1 ≤ ("hello" : String).length ∧ ("hello" : String).length ≤ 10000 ∧
      (jsTrim "hello").length ≠ 0) ∧
    ∃ req, buildPayload { prompt := "hello", detectionMethod := "INJECTION_GUARD", ruleSettings := none } 0 = .ok req ∧
      req.detection_method = "INJECTION_GUARD" ∧ req.prompt = "hello" :=
  ⟨⟨by decide, by decide, by decide⟩,
    C1_payload_builder "hello" "INJECTION_GUARD" none 0 (by decide) (by decide) (by decide)
      (Or.inl rfl)⟩

/-- C6: for every prompt that is empty or consists only of whitespace,
payload building fails with a validation error carrying the index of the
item being processed. -/
theorem C6_empty_validation (p : ItemParams) (i : Nat)
    (h : p.prompt = "" ∨ p.prompt.data.all Char.isWhitespace = true) :
    ∃ ne, buildPayload p i = .error ne ∧ ne.itemIndex = i :=
  ⟨_, buildPayload_empty p i h, rfl⟩

/-- Witness for C6 at a whitespace-only prompt on item 5. -/
theorem C6_witness :
    ((" " : String) = "" ∨ (" " : String).data.all Char.isWhitespace = true) ∧
    ∃ ne, buildPayload { prompt := " ", detectionMethod := "INJECTION_GUARD_MULTI", ruleSettings := none } 5
        = .error ne ∧ ne.itemIndex = 5 :=
  ⟨Or.inr (by decide), C6_empty_validation _ 5 (Or.inr (by decide))⟩

/-- C9: for every whitespace-only prompt the validation error raised is
the emptiness error, whatever the prompt's length, so the length-limit
message is never produced for whitespace-only input. -/
theorem C9_whitespace_first (p : ItemParams) (i : Nat)
    (h : p.prompt.data.all Char.isWhitespace = true) :
    buildPayload p i = .error { message := "Prompt cannot be empty", itemIndex := i } :=
  buildPayload_empty p i (Or.inr h)

/-- Witness for C9 at a whitespace-only prompt of length 10001. -/
theorem C9_witness :
    (String.mk (List.replicate 10001 ' ')).length = 10001 ∧
    buildPayload { prompt := String.mk (List.replicate 10001 ' '),
                   detectionMethod := "SAFETY_GUARD", ruleSettings := none } 3
      = .error { message := "Prompt cannot be empty", itemIndex := 3 } := by
  constructor
  · show (List.replicate 10001 ' ').length = 10001
    rw [List.length_replicate]
  · exact C9_whitespace_first _ 3 (all_ws_replicate_space 10001)

/-! Further helper lemmas for the remaining claims. -/

theorem string_mk_data (s : String) : String.mk s.data = s := by
  cases s
  rfl

theorem string_length_pos_iff (s : String) : 0 < s.length ↔ s ≠ "" := by
  cases s with
  | mk l =>
    cases l with
    | nil =>
      constructor
      · intro h
        exact absurd h (by decide)
      · intro h
        exact absurd rfl h
    | cons c cs =>
      constructor
      · intro _ h
        have hd := congrArg String.data h
        simp at hd
      · intro _
        show 0 < (c :: cs).length
        simp

/-- C5 as stated is false: a whitespace-only prompt of length 10001 fails
with the emptiness message, which mentions neither the character count nor
the text 10,000. -/
theorem C5_counterexample :
    (String.mk (List.replicate 10001 ' ')).length = 10001 ∧
    buildPayload { prompt := String.mk (List.replicate 10001 ' '),
                   detectionMethod := "INJECTION_GUARD", ruleSettings := none } 0
      = .error { message := "Prompt cannot be empty", itemIndex := 0 } ∧
    strHas "Prompt cannot be empty" "10,000" = false ∧
    strHas "Prompt cannot be empty" "10001" = false := by
  refine ⟨?_, ?_, by decide, by decide⟩
  · show (List.replicate 10001 ' ').length = 10001
    rw [List.length_replicate]
  · exact buildPayload_empty _ 0 (Or.inr (all_ws_replicate_space 10001))

/-- C5 (amended): for every prompt that is not whitespace-only and whose
length exceeds 10,000 characters, payload building fails with a validation
error at the item's index whose message contains the exact character count
of that prompt and the text 10,000. -/
theorem C5_long_prompt (p : ItemParams) (i : Nat)
    (hw : (jsTrim p.prompt).length ≠ 0)
    (h : p.prompt.length > 10000) :
    ∃ ne, buildPayload p i = .error ne ∧ ne.itemIndex = i ∧
      strHas ne.message (toString p.prompt.length) = true ∧
      strHas ne.message "10,000" = true := by
  have h0 : ¬ p.prompt = "" := by
    intro he
    rw [he] at h
    exact absurd h (by decide)
  have hcond : ¬ (p.prompt = "" ∨ (jsTrim p.prompt).length = 0) := by
    rintro (hh | hh)
    · exact h0 hh
    · exact hw hh
  have hb : buildPayload p i = .error
      { message := "Prompt is too long (" ++ toString p.prompt.length
          ++ " characters). Maximum allowed is 10,000 characters.",
        itemIndex := i } := by
    unfold buildPayload
    rw [if_neg hcond, if_pos h]
  refine ⟨_, hb, rfl, ?_, ?_⟩
  · apply strHas_of_data ("Prompt is too long (" : String).data
      (" characters). Maximum allowed is 10,000 characters." : String).data
    rw [strData_append, strData_append, List.append_assoc]
  · apply strHas_of_data
      (("Prompt is too long (" : String).data ++ (toString p.prompt.length).data
        ++ (" characters). Maximum allowed is " : String).data)
      (" characters." : String).data
    rw [strData_append, strData_append]
    have hB : (" characters). Maximum allowed is 10,000 characters." : String).data
        = (" characters). Maximum allowed is " : String).data
          ++ (("10,000" : String).data ++ (" characters." : String).data) := by decide
    rw [hB]
    simp only [List.append_assoc]

/-- Witness for C5 at a non-whitespace prompt of length 10001, whose count
renders as the text 10001. -/
theorem C5_witness :
    ((jsTrim (String.mk (List.replicate 10001 'a'))).length ≠ 0 ∧
      (String.mk (List.replicate 10001 'a')).length > 10000 ∧
      toString (String.mk (List.replicate 10001 'a')).length = "10001") ∧
    ∃ ne, buildPayload { prompt := String.mk (List.replicate 10001 'a'),
                         detectionMethod := "INJECTION_GUARD", ruleSettings := none } 0 = .error ne ∧
      ne.itemIndex = 0 ∧
      strHas ne.message (toString (String.mk (List.replicate 10001 'a')).length) = true ∧
      strHas ne.message "10,000" = true := by
  have hlen : (String.mk (List.replicate 10001 'a')).length = 10001 := by
    show (List.replicate 10001 'a').length = 10001
    rw [List.length_replicate]
  have htrim : (jsTrim (String.mk (List.replicate 10001 'a'))).length ≠ 0 := by
    show (String.mk (trimChars (List.replicate 10001 'a'))).length ≠ 0
    rw [trimChars_replicate_not (by decide)]
    show (List.replicate 10001 'a').length ≠ 0
    rw [List.length_replicate]
    omega
  refine ⟨⟨htrim, by rw [hlen]; omega, by rw [hlen]; rfl⟩, ?_⟩
  exact C5_long_prompt
    { prompt := String.mk (List.replicate 10001 'a'),
      detectionMethod := "INJECTION_GUARD", ruleSettings := none } 0
    htrim (by show (String.mk (List.replicate 10001 'a')).length > 10000; rw [hlen]; omega)

/-- C7: blocked_keywords equals the input split on newlines with every
line trimmed and blank lines dropped, in order; concretely the input with
a blank line and trailing whitespace yields exactly the two keywords. -/
theorem C7_blocked_keywords (en : Option Bool) (dc : Option (List String)) (bk : String) :
    (buildRuleSettings { enabled := en, disabledCategories := dc,
                         blockedKeywords := some bk }).blocked_keywords
      = ((splitNl bk.data).map (fun l => jsTrim (String.mk l))).filter
          (fun s => decide (s ≠ "")) ∧
    (buildRuleSettings { enabled := en, disabledCategories := dc,
                         blockedKeywords := some "a\n\nb \n" }).blocked_keywords
      = ["a", "b"] := by
  constructor
  · show (if bk = "" then [] else parseBlockedKeywords bk) = _
    by_cases hbk : bk = ""
    · rw [if_pos hbk, hbk]
      rfl
    · rw [if_neg hbk]
      unfold parseBlockedKeywords
      apply List.filter_congr
      intro s _
      exact decide_eq_decide.mpr (string_length_pos_iff s)
  · rfl

/-- C8: whenever the rule-settings collection is present, a successful
payload includes rule_settings, with enabled true unless the input field
is explicitly false, and disabled_categories equal to the input list or
empty when absent. -/
theorem C8_rule_settings (p : ItemParams) (i : Nat) (rs : RuleSettingsInput)
    (req : DetectionRequest)
    (hrs : p.ruleSettings = some rs)
    (h : buildPayload p i = .ok req) :
    ∃ s, req.rule_settings = some s ∧
      (rs.enabled = some false → s.enabled = false) ∧
      (rs.enabled ≠ some false → s.enabled = true) ∧
      (rs.disabledCategories = none → s.disabled_categories = []) ∧
      (∀ l, rs.disabledCategories = some l → s.disabled_categories = l) := by
  have hreq : req.rule_settings = p.ruleSettings.map buildRuleSettings := by
    unfold buildPayload at h
    split at h
    · exact Except.noConfusion h
    · split at h
      · exact Except.noConfusion h
      · rw [← Except.ok.inj h]
  refine ⟨buildRuleSettings rs, ?_, ?_, ?_, ?_, ?_⟩
  · rw [hreq, hrs]
    rfl
  · intro he
    show (rs.enabled != some false) = false
    rw [he]
    rfl
  · intro he
    show (rs.enabled != some false) = true
    cases hen : rs.enabled with
    | none => rfl
    | some b =>
      cases b with
      | false => exact absurd hen he
      | true => rfl
  · intro hd
    show rs.disabledCategories.getD [] = []
    rw [hd]
    rfl
  · intro l hd
    show rs.disabledCategories.getD [] = l
    rw [hd]
    rfl

/-- Witness for C8 at an empty rule-settings collection: rule_settings is
present with all defaults. -/
theorem C8_witness :
    ∃ s, ({ prompt := "hi", detection_method := "INJECTION_GUARD_MULTI",
            rule_settings := some { enabled := true, disabled_categories := [],
                                    blocked_keywords := [] } } : DetectionRequest).rule_settings
        = some s ∧
      (({ enabled := none, disabledCategories := none, blockedKeywords := none } : RuleSettingsInput).enabled = some false → s.enabled = false) ∧
      (({ enabled := none, disabledCategories := none, blockedKeywords := none } : RuleSettingsInput).enabled ≠ some false → s.enabled = true) ∧
      (({ enabled := none, disabledCategories := none, blockedKeywords := none } : RuleSettingsInput).disabledCategories = none →
        s.disabled_categories = []) ∧
      (∀ l, ({ enabled := none, disabledCategories := none, blockedKeywords := none } : RuleSettingsInput).disabledCategories = some l →
        s.disabled_categories = l) :=
  C8_rule_settings
    { prompt := "hi", detectionMethod := "INJECTION_GUARD_MULTI",
      ruleSettings := some { enabled := none, disabledCategories := none, blockedKeywords := none } }
    0
    { enabled := none, disabledCategories := none, blockedKeywords := none }
    { prompt := "hi", detection_method := "INJECTION_GUARD_MULTI",
      rule_settings := some { enabled := true, disabled_categories := [], blocked_keywords := [] } }
    rfl rfl

/-- C10: for a base URL not ending in a slash, the detection request URL
is the base URL plus /v1/detect; adding exactly one trailing slash gives
the same URL, while adding two keeps one of them. -/
theorem C10_detect_url (c apiKey : String) (payload : DetectionRequest)
    (h : c.data.getLast? ≠ some '/') :
    (buildOptions c apiKey payload).url = c ++ "/v1/detect" ∧
    (buildOptions (c ++ "/") apiKey payload).url = (buildOptions c apiKey payload).url ∧
    (buildOptions (c ++ "//") apiKey payload).url = (c ++ "/") ++ "/v1/detect" := by
  have hdataS : (c ++ "/").data = c.data ++ ['/'] := by
    rw [strData_append]
  have hdataSS : (c ++ "//").data = (c.data ++ ['/']) ++ ['/'] := by
    rw [strData_append]
    rw [List.append_assoc]
    rfl
  have hbase : detectUrl c = c ++ "/v1/detect" := by
    unfold detectUrl stripSlash
    rw [if_neg h, string_mk_data]
  refine ⟨hbase, ?_, ?_⟩
  · show detectUrl (c ++ "/") = detectUrl c
    unfold detectUrl stripSlash
    rw [hdataS, List.getLast?_concat, if_pos rfl, List.dropLast_concat, if_neg h, string_mk_data]
  · show detectUrl (c ++ "//") = (c ++ "/") ++ "/v1/detect"
    unfold detectUrl stripSlash
    rw [hdataSS, List.getLast?_concat, if_pos rfl, List.dropLast_concat, ← hdataS, string_mk_data]

/-- C4: the classifier maps remote status 401 to Authentication failed
and 429 to Rate limit exceeded, each with its fixed details text; status
400 gives Invalid request with details from the response body's detail
field, else its error field, else a fixed text. -/
theorem C4_error_taxonomy (e : CaughtError) (resp : HttpErrorResponse)
    (h : e.response = some resp) :
    (jsOrNat resp.status e.statusCode = some 401 →
      classifyError e = { errorMessage := "Authentication failed",
                          errorDetails := "Invalid API key. Please check your Antijection API credentials." }) ∧
    (jsOrNat resp.status e.statusCode = some 429 →
      classifyError e = { errorMessage := "Rate limit exceeded",
                          errorDetails := "You have exceeded your API rate limit or credit quota. Please upgrade your plan or wait before retrying." }) ∧
    (jsOrNat resp.status e.statusCode = some 400 →
      (classifyError e).errorMessage = "Invalid request" ∧
      (∀ d, (jsOrBody resp.body resp.data).bind HttpBody.detail = some d → d ≠ "" →
        (classifyError e).errorDetails = d) ∧
      (∀ s, jsStrTruthy ((jsOrBody resp.body resp.data).bind HttpBody.detail) = none →
        (jsOrBody resp.body resp.data).bind HttpBody.error = some s → s ≠ "" →
        (classifyError e).errorDetails = s) ∧
      (jsStrTruthy ((jsOrBody resp.body resp.data).bind HttpBody.detail) = none →
        jsStrTruthy ((jsOrBody resp.body resp.data).bind HttpBody.error) = none →
        (classifyError e).errorDetails
          = "The request was malformed. Check your input parameters.")) := by
  have hc : classifyError e = classifyHttp (jsOrNat resp.status e.statusCode)
      (jsOrBody resp.body resp.data) e.message := by
    unfold classifyError
    rw [h]
  refine ⟨?_, ?_, ?_⟩
  · intro hst
    rw [hc, hst]
    rfl
  · intro hst
    rw [hc, hst]
    rfl
  · intro hst
    rw [hc, hst]
    refine ⟨rfl, ?_, ?_, ?_⟩
    · intro d hd hdne
      show jsDetailOr (jsOrBody resp.body resp.data)
          "The request was malformed. Check your input parameters." = d
      unfold jsDetailOr
      rw [hd]
      simp only [jsStrTruthy]
      rw [if_neg hdne]
      rfl
    · intro s hdet herr hsne
      show jsDetailOr (jsOrBody resp.body resp.data)
          "The request was malformed. Check your input parameters." = s
      unfold jsDetailOr
      rw [hdet, herr]
      simp only [jsStrTruthy]
      rw [if_neg hsne]
      rfl
    · intro hdet herr
      show jsDetailOr (jsOrBody resp.body resp.data)
          "The request was malformed. Check your input parameters." = _
      unfold jsDetailOr
      rw [hdet, herr]
      rfl

/-- Witness for C4 at concrete 401, 429 and 400 error responses. -/
theorem C4_witness :
    classifyError { message := "m", response := some { status := some 401, body := none, data := none }, statusCode := none }
      = { errorMessage := "Authentication failed",
          errorDetails := "Invalid API key. Please check your Antijection API credentials." } ∧
    classifyError { message := "m", response := some { status := some 429, body := none, data := none }, statusCode := none }
      = { errorMessage := "Rate limit exceeded",
          errorDetails := "You have exceeded your API rate limit or credit quota. Please upgrade your plan or wait before retrying." } ∧
    (classifyError { message := "m", response := some { status := some 400, body := some { detail := some "bad", error := none }, data := none }, statusCode := none }).errorDetails
      = "bad" := by
  refine ⟨?_, ?_, ?_⟩
  · exact (C4_error_taxonomy
      { message := "m", response := some { status := some 401, body := none, data := none }, statusCode := none }
      { status := some 401, body := none, data := none } rfl).1 rfl
  · exact (C4_error_taxonomy
      { message := "m", response := some { status := some 429, body := none, data := none }, statusCode := none }
      { status := some 429, body := none, data := none } rfl).2.1 rfl
  · exact ((C4_error_taxonomy
      { message := "m", response := some { status := some 400, body := some { detail := some "bad", error := none }, data := none }, statusCode := none }
      { status := some 400, body := some { detail := some "bad", error := none }, data := none }
      rfl).2.2 rfl).2.1 "bad" rfl (by decide)

/-! The item loop under continue-on-failure. -/

theorem runItem_true_eq {ρ : Type} (http : DetectionRequest → HttpResult ρ)
    (p : ItemParams) (i : Nat) :
    runItem true http p i = .ok (forcedOut http p i) := by
  unfold runItem forcedOut handleError
  cases htb : tryBody http p i <;> simp

theorem forcedOut_pairedItem {ρ : Type} (http : DetectionRequest → HttpResult ρ)
    (p : ItemParams) (i : Nat) :
    (forcedOut http p i).pairedItem = i := by
  unfold forcedOut
  cases htb : tryBody http p i <;> rfl

theorem forcedOut_error {ρ : Type} (http : DetectionRequest → HttpResult ρ)
    (p : ItemParams) (i : Nat) (e : CaughtError) (h : tryBody http p i = .error e) :
    forcedOut http p i
      = { json := OutJson.errorRecord (classifyError e).errorMessage (classifyError e).errorDetails
            (jsOrNat (e.response.bind HttpErrorResponse.status) e.statusCode),
          pairedItem := i } := by
  unfold forcedOut
  rw [h]

theorem forcedOut_ok {ρ : Type} (http : DetectionRequest → HttpResult ρ)
    (p : ItemParams) (i : Nat) (r : ρ) (h : tryBody http p i = .ok r) :
    forcedOut http p i = { json := OutJson.response r, pairedItem := i } := by
  unfold forcedOut
  rw [h]

theorem executeLoop_true_spec {ρ : Type} (http : Nat → DetectionRequest → HttpResult ρ)
    (items : List ItemParams) : ∀ i : Nat,
    ∃ outs, executeLoop true http items i = .ok outs ∧ outs.length = items.length ∧
      ∀ k : Nat, outs[k]? = Option.map (fun p => forcedOut (http (i + k)) p (i + k)) items[k]? := by
  induction items with
  | nil => exact fun i => ⟨[], rfl, rfl, fun k => by simp⟩
  | cons p ps ih =>
    intro i
    obtain ⟨outs, h1, h2, h3⟩ := ih (i + 1)
    refine ⟨forcedOut (http i) p i :: outs, ?_, by simp [h2], ?_⟩
    · show (match runItem true (http i) p i with
        | .error ne => .error ne
        | .ok item => Except.map (fun rest => item :: rest) (executeLoop true http ps (i + 1)))
        = Except.ok (forcedOut (http i) p i :: outs)
      rw [runItem_true_eq, h1]
      rfl
    · intro k
      cases k with
      | zero => simp
      | succ k =>
        have hk := h3 k
        have harith : i + 1 + k = i + (k + 1) := by omega
        rw [harith] at hk
        simpa using hk

/-- C2: with continue-on-failure active and exactly one of the items
failing, execute returns one output per input item, the failing index
holds an error record, every other index holds the successful decoded
response, and every output's pairedItem equals its input index. -/
theorem C2_continue_on_fail {ρ : Type} (http : Nat → DetectionRequest → HttpResult ρ)
    (items : List ItemParams) (f : Nat) (pf : ItemParams) (ef : CaughtError)
    (hf : items[f]? = some pf)
    (hfail : tryBody (http f) pf f = .error ef)
    (hok : ∀ k p, items[k]? = some p → k ≠ f → ∃ r, tryBody (http k) p k = .ok r) :
    ∃ outs : List (OutputItem ρ),
      execute true http items = .ok outs ∧
      outs.length = items.length ∧
      (∀ (k : Nat) (o : OutputItem ρ), outs[k]? = some o → o.pairedItem = k) ∧
      (∃ o, outs[f]? = some o ∧ ∃ m d sc, o.json = OutJson.errorRecord m d sc) ∧
      (∀ k p, items[k]? = some p → k ≠ f →
        ∃ r, tryBody (http k) p k = .ok r ∧
          outs[k]? = some { json := OutJson.response r, pairedItem := k }) := by
  obtain ⟨outs, h1, h2, h3⟩ := executeLoop_true_spec http items 0
  have h4 : ∀ k : Nat, outs[k]? = Option.map (fun p => forcedOut (http k) p k) items[k]? := by
    intro k
    simpa using h3 k
  refine ⟨outs, h1, h2, ?_, ?_, ?_⟩
  · intro k o ho
    rw [h4 k] at ho
    cases hit : items[k]? with
    | none =>
      rw [hit] at ho
      simp at ho
    | some q =>
      rw [hit] at ho
      have hq : forcedOut (http k) q k = o := by simpa using ho
      rw [← hq]
      exact forcedOut_pairedItem _ _ _
  · refine ⟨forcedOut (http f) pf f, ?_, ?_⟩
    · rw [h4 f, hf]
      rfl
    · exact ⟨_, _, _, congrArg OutputItem.json (forcedOut_error (http f) pf f ef hfail)⟩
  · intro k p hp hk
    obtain ⟨r, hr⟩ := hok k p hp hk
    refine ⟨r, hr, ?_⟩
    rw [h4 k, hp]
    show some (forcedOut (http k) p k) = _
    rw [forcedOut_ok (http k) p k r hr]

/-- Witness for C2: two items, the second failing in transport, give two
outputs with an error record at index 1 and a response at index 0. -/
theorem C2_witness :
    ∃ outs : List (OutputItem Nat),
      execute true
        (fun k _ => if k = 1 then HttpResult.err { message := "boom", response := none, statusCode := none } else HttpResult.ok 7)
        [ { prompt := "a", detectionMethod := "INJECTION_GUARD", ruleSettings := none },
          { prompt := "b", detectionMethod := "SAFETY_GUARD", ruleSettings := none } ]
        = .ok outs ∧
      outs.length = 2 ∧
      (∃ o, outs[1]? = some o ∧ ∃ m d sc, o.json = OutJson.errorRecord m d sc) ∧
      (∃ r : Nat, outs[0]? = some { json := OutJson.response r, pairedItem := 0 }) := by
  have hok : ∀ (k : Nat) (p : ItemParams),
      ([ { prompt := "a", detectionMethod := "INJECTION_GUARD", ruleSettings := none },
         { prompt := "b", detectionMethod := "SAFETY_GUARD", ruleSettings := none } ] : List ItemParams)[k]? = some p →
      k ≠ 1 →
      ∃ r, tryBody ((fun k _ => if k = 1 then HttpResult.err { message := "boom", response := none, statusCode := none } else HttpResult.ok 7) k) p k = Except.ok r := by
    intro k p hp hk
    match k with
    | 0 =>
      have hp0 : ({ prompt := "a", detectionMethod := "INJECTION_GUARD", ruleSettings := none } : ItemParams) = p := by
        simpa using hp
      exact ⟨7, by rw [← hp0]; rfl⟩
    | 1 => exact absurd rfl hk
    | Nat.succ (Nat.succ k) => simp at hp
  obtain ⟨outs, h1, h2, h3, h4, h5⟩ :=
    C2_continue_on_fail (ρ := Nat)
      (fun k _ => if k = 1 then HttpResult.err { message := "boom", response := none, statusCode := none } else HttpResult.ok 7)
      [ { prompt := "a", detectionMethod := "INJECTION_GUARD", ruleSettings := none },
        { prompt := "b", detectionMethod := "SAFETY_GUARD", ruleSettings := none } ]
      1
      { prompt := "b", detectionMethod := "SAFETY_GUARD", ruleSettings := none }
      { message := "boom", response := none, statusCode := none }
      rfl rfl hok
  refine ⟨outs, h1, by rw [h2]; rfl, h4, ?_⟩
  obtain ⟨r, _, ho⟩ :=
    h5 0 { prompt := "a", detectionMethod := "INJECTION_GUARD", ruleSettings := none } rfl (by omega)
  exact ⟨r, ho⟩

/-! The item loop without continue-on-failure. -/

theorem executeLoop_false_abort {ρ : Type} (http : Nat → DetectionRequest → HttpResult ρ)
    (items : List ItemParams) : ∀ (i f : Nat) (pf : ItemParams) (e : CaughtError),
      items[f]? = some pf →
      tryBody (http (i + f)) pf (i + f) = .error e →
      (∀ k p, k < f → items[k]? = some p → ∃ r, tryBody (http (i + k)) p (i + k) = .ok r) →
      executeLoop false http items i
        = .error { message := fullErrorOf (classifyError e), itemIndex := i + f } := by
  induction items with
  | nil =>
    intro i f pf e hf
    simp at hf
  | cons p ps ih =>
    intro i f pf e hf hfail hok
    cases f with
    | zero =>
      have hp : p = pf := by simpa using hf
      subst hp
      simp only [Nat.add_zero] at hfail ⊢
      show (match runItem false (http i) p i with
        | .error ne => .error ne
        | .ok item => Except.map (fun rest => item :: rest) (executeLoop false http ps (i + 1)))
        = Except.error { message := fullErrorOf (classifyError e), itemIndex := i }
      have hr : runItem false (http i) p i
          = .error { message := fullErrorOf (classifyError e), itemIndex := i } := by
        unfold runItem handleError
        rw [hfail]
        rfl
      rw [hr]
    | succ f =>
      obtain ⟨r, hr⟩ := hok 0 p (by omega) (by simp)
      have hr' : tryBody (http i) p i = .ok r := by simpa using hr
      have hstep : runItem false (http i) p i = .ok { json := OutJson.response r, pairedItem := i } := by
        unfold runItem
        rw [hr']
      show (match runItem false (http i) p i with
        | .error ne => .error ne
        | .ok item => Except.map (fun rest => item :: rest) (executeLoop false http ps (i + 1)))
        = Except.error { message := fullErrorOf (classifyError e), itemIndex := i + (f + 1) }
      have hrec := ih (i + 1) f pf e (by simpa using hf)
        (by rw [show i + 1 + f = i + (f + 1) from by omega]; exact hfail)
        (by
          intro k q hkf hq
          have hx := hok (k + 1) q (by omega) (by simpa using hq)
          rw [show i + (k + 1) = i + 1 + k from by omega] at hx
          exact hx)
      rw [hstep, hrec, show i + 1 + f = i + (f + 1) from by omega]
      rfl

/-- C3: without continue-on-failure, the first failing item aborts the
whole run with a single operation error carrying the combined message and
that item's index; no output list is returned at all. -/
theorem C3_abort_on_failure {ρ : Type} (http : Nat → DetectionRequest → HttpResult ρ)
    (items : List ItemParams) (f : Nat) (pf : ItemParams) (e : CaughtError)
    (hf : items[f]? = some pf)
    (hfail : tryBody (http f) pf f = .error e)
    (hok : ∀ k p, k < f → items[k]? = some p → ∃ r, tryBody (http k) p k = .ok r) :
    execute false http items
      = .error { message := fullErrorOf (classifyError e), itemIndex := f } := by
  have h := executeLoop_false_abort http items 0 f pf e hf (by simpa using hfail)
    (by intro k p hk hp; simpa using hok k p hk hp)
  simpa using h

/-- Witness for C3: of two items the second fails validation, the run
aborts with the emptiness message at index 1, and no outputs survive. -/
theorem C3_witness :
    execute (ρ := Nat) false (fun _ _ => HttpResult.ok 0)
      [ { prompt := "a", detectionMethod := "INJECTION_GUARD", ruleSettings := none },
        { prompt := "", detectionMethod := "SAFETY_GUARD", ruleSettings := none } ]
      = .error { message := "Prompt cannot be empty", itemIndex := 1 } := by
  have hok : ∀ (k : Nat) (p : ItemParams), k < 1 →
      ([ { prompt := "a", detectionMethod := "INJECTION_GUARD", ruleSettings := none },
         { prompt := "", detectionMethod := "SAFETY_GUARD", ruleSettings := none } ] : List ItemParams)[k]? = some p →
      ∃ r, tryBody ((fun _ _ => HttpResult.ok (0 : Nat)) k) p k = Except.ok r := by
    intro k p hk hp
    match k with
    | 0 =>
      have hp0 : ({ prompt := "a", detectionMethod := "INJECTION_GUARD", ruleSettings := none } : ItemParams) = p := by
        simpa using hp
      exact ⟨0, by rw [← hp0]; rfl⟩
    | Nat.succ k => omega
  exact C3_abort_on_failure (ρ := Nat) (fun _ _ => HttpResult.ok 0)
    [ { prompt := "a", detectionMethod := "INJECTION_GUARD", ruleSettings := none },
      { prompt := "", detectionMethod := "SAFETY_GUARD", ruleSettings := none } ]
    1
    { prompt := "", detectionMethod := "SAFETY_GUARD", ruleSettings := none }
    { message := "Prompt cannot be empty", response := none, statusCode := none }
    rfl rfl hok

/-- Witness for C10 at the documented default base URL. -/
theorem C10_witness :
    (("https://api.antijection.com" : String).data.getLast? ≠ some '/') ∧
    (buildOptions "https://api.antijection.com" "key"
        { prompt := "hi", detection_method := "INJECTION_GUARD", rule_settings := none }).url
      = "https://api.antijection.com" ++ "/v1/detect" ∧
    (buildOptions ("https://api.antijection.com" ++ "/") "key"
        { prompt := "hi", detection_method := "INJECTION_GUARD", rule_settings := none }).url
      = (buildOptions "https://api.antijection.com" "key"
        { prompt := "hi", detection_method := "INJECTION_GUARD", rule_settings := none }).url ∧
    (buildOptions ("https://api.antijection.com" ++ "//") "key"
        { prompt := "hi", detection_method := "INJECTION_GUARD", rule_settings := none }).url
      = ("https://api.antijection.com" ++ "/") ++ "/v1/detect" := by
  refine ⟨by decide, ?_⟩
  exact C10_detect_url "https://api.antijection.com" "key"
    { prompt := "hi", detection_method := "INJECTION_GUARD", rule_settings := none }
    (by decide)

end Antijection
